import Mathlib

/-!
Shallow embedding of the convergence-benchmark playback core
(`src/app/src/App.tsx`): the `GameResult` record, the round deriver
`getRounds`, and the cursor state machine of `GameViewer`
(`stepForward`, `stepBackward`, `reset`, `playAll`), together with the
derived observables (`isPlaying`, `visibleRounds`, the result display and
the start prompt).
-/

namespace Convergence

/-- The four outcome tags of the TS union type
`"win" | "non_convergence" | "repetition" | "invalid_word"`. -/
inductive Outcome where
  | win : Outcome
  | non_convergence : Outcome
  | repetition : Outcome
  | invalid_word : Outcome
deriving DecidableEq, Repr

/-- Record `GameResult` from `types.ts`.  `converged_word : string | null` becomes
`Option String`; the numeric fields are integers in every record the app
uses, so they are embedded as `Nat`. -/
structure GameResult where
  outcome : Outcome
  rounds : Nat
  converged_word : Option String
  player1_model : String
  player2_model : String
  player1_words : List String
  player2_words : List String
  seed_word1 : String
  seed_word2 : String
  game_number : Nat
  timestamp : String
deriving DecidableEq, Repr

/-- Record `Round` from `types.ts`.  The TS interface declares both word fields as
`string`, but `getRounds` fills them by JS array indexing, which yields
`undefined` out of range; the embedding keeps that runtime behaviour with
`Option String` (`none` = `undefined`). -/
structure Round where
  number : Nat
  player1_word : Option String
  player2_word : Option String
  converged : Bool
deriving DecidableEq, Repr

/-- Function `getRounds` from `GameViewer.tsx`: a loop `for i in
[0, player1_words.length)` pushing
`{ number: i+1, player1_word: p1[i], player2_word: p2[i],
converged: p1[i] === p2[i] }`.  JS `===` on `undefined` agrees with
`Option` equality (`undefined === undefined` is `true`,
`string === undefined` is `false`). -/
def getRounds (game : GameResult) : List Round :=
  (List.range game.player1_words.length).map fun i =>
    { number := i + 1
      player1_word := game.player1_words[i]?
      player2_word := game.player2_words[i]?
      converged := game.player1_words[i]? == game.player2_words[i]? }

/-- Abbreviation for `rounds.length` in `GameViewer`. -/
def roundCount (game : GameResult) : Nat :=
  (getRounds game).length

/-- Transition `stepForward`: `if (currentRound < rounds.length) setCurrentRound(currentRound + 1)`.
The cursor is a JS number, embedded as `Int` so that non-negativity is a
real statement. -/
def stepForward (game : GameResult) (currentRound : Int) : Int :=
  if currentRound < (roundCount game : Int) then currentRound + 1 else currentRound

/-- Transition `stepBackward`: `if (currentRound > 0) setCurrentRound(currentRound - 1)`. -/
def stepBackward (currentRound : Int) : Int :=
  if currentRound > 0 then currentRound - 1 else currentRound

/-- Transition `reset`: `setCurrentRound(0)`. -/
def reset (_currentRound : Int) : Int := 0

/-- Transition `playAll`: `setCurrentRound(rounds.length)`. -/
def playAll (game : GameResult) (_currentRound : Int) : Int :=
  (roundCount game : Int)

/-- The four user-initiated transitions of the playback controller. -/
inductive Transition where
  | stepForward : Transition
  | stepBackward : Transition
  | reset : Transition
  | playAll : Transition
deriving DecidableEq, Repr

/-- One transition applied to the cursor. -/
def applyTransition (game : GameResult) (t : Transition) (currentRound : Int) : Int :=
  match t with
  | Transition.stepForward => stepForward game currentRound
  | Transition.stepBackward => stepBackward currentRound
  | Transition.reset => reset currentRound
  | Transition.playAll => playAll game currentRound

/-- A finite sequence of transitions applied in order, starting from `currentRound`. -/
def runTransitions (game : GameResult) (ts : List Transition) (currentRound : Int) : Int :=
  ts.foldl (fun c t => applyTransition game t c) currentRound

/-- Derived flag `isPlaying = currentRound > 0`. -/
def isPlaying (currentRound : Int) : Bool :=
  decide (currentRound > 0)

/-- The start prompt is rendered under the guard `!isPlaying`. -/
def showStartPrompt (currentRound : Int) : Bool :=
  !(isPlaying currentRound)

/-- The spec's `isComplete := cursor == N`; in the code this is the guard
`currentRound === rounds.length` of the two result blocks. -/
def isComplete (game : GameResult) (currentRound : Int) : Bool :=
  currentRound == (roundCount game : Int)

/-- JS `xs.slice(0, stop)`: a negative `stop` counts from the end of the
array, otherwise the result is the prefix of length `stop` clamped to the
array length. -/
def jsSliceFromZero {α : Type} (xs : List α) (stop : Int) : List α :=
  if stop < 0 then xs.take (((xs.length : Int) + stop).toNat)
  else xs.take stop.toNat

/-- Derived list `visibleRounds = rounds.slice(0, currentRound)`. -/
def visibleRounds (game : GameResult) (currentRound : Int) : List Round :=
  jsSliceFromZero (getRounds game) currentRound

/-- What the result area of the timeline renders. -/
inductive ResultDisplay where
  | noResult : ResultDisplay
  | success : Option String → Nat → ResultDisplay
  | failure : Outcome → ResultDisplay
deriving DecidableEq, Repr

/-- The two mutually exclusive result blocks of `GameViewer`:
`currentRound === rounds.length && outcome === "win"` renders the success
message with `game.converged_word` and `game.rounds`;
`currentRound === rounds.length && outcome !== "win"` renders the failure
message with `game.outcome`; otherwise neither renders. -/
def resultDisplay (game : GameResult) (currentRound : Int) : ResultDisplay :=
  if currentRound = (roundCount game : Int) then
    if game.outcome = Outcome.win then
      ResultDisplay.success game.converged_word game.rounds
    else
      ResultDisplay.failure game.outcome
  else
    ResultDisplay.noResult

/-- Value `sampleGame` from `App.tsx`. -/
def sampleGame : GameResult :=
  { outcome := Outcome.win
    rounds := 2
    converged_word := some "sand"
    player1_model := "claude-3-haiku-20240307"
    player2_model := "claude-3-haiku-20240307"
    player1_words := ["beach", "sand"]
    player2_words := ["island", "sand"]
    seed_word1 := "vacation"
    seed_word2 := "rock"
    game_number := 1
    timestamp := "2025-12-17T08:08:53.877325+00:00" }

/-- A record with empty word sequences (the §4.1 edge case). -/
def emptyGame : GameResult :=
  { outcome := Outcome.non_convergence
    rounds := 0
    converged_word := none
    player1_model := "m1"
    player2_model := "m2"
    player1_words := []
    player2_words := []
    seed_word1 := "s1"
    seed_word2 := "s2"
    game_number := 2
    timestamp := "2025-12-17T08:08:53.877325+00:00" }

/-- A record whose second word list is shorter than the first. -/
def raggedGame : GameResult :=
  { outcome := Outcome.invalid_word
    rounds := 2
    converged_word := none
    player1_model := "m1"
    player2_model := "m2"
    player1_words := ["alpha", "beta"]
    player2_words := ["alpha"]
    seed_word1 := "s1"
    seed_word2 := "s2"
    game_number := 3
    timestamp := "2025-12-17T08:08:53.877325+00:00" }

/-! ## Helper lemmas -/

/-- Auxiliary: the deriver always produces one round per `player1_words` entry. -/
theorem getRounds_length (g : GameResult) :
    (getRounds g).length = g.player1_words.length := by
  simp [getRounds]

/-- Auxiliary: the shape of the round at index `i`. -/
theorem getRounds_get (g : GameResult) (i : Nat) (hi : i < (getRounds g).length) :
    (getRounds g).get ⟨i, hi⟩ =
      { number := i + 1
        player1_word := g.player1_words[i]?
        player2_word := g.player2_words[i]?
        converged := g.player1_words[i]? == g.player2_words[i]? } := by
  simp [getRounds]

/-- Auxiliary: a single transition keeps the cursor in `[0, N]`. -/
theorem applyTransition_bounds (g : GameResult) (t : Transition) (c : Int)
    (h0 : 0 ≤ c) (hN : c ≤ (roundCount g : Int)) :
    0 ≤ applyTransition g t c ∧ applyTransition g t c ≤ (roundCount g : Int) := by
  cases t with
  | stepForward =>
      simp only [applyTransition, stepForward]
      split_ifs <;> omega
  | stepBackward =>
      simp only [applyTransition, stepBackward]
      split_ifs <;> omega
  | reset =>
      simp only [applyTransition, reset]
      omega
  | playAll =>
      simp only [applyTransition, playAll]
      omega

/-- Auxiliary: any transition sequence keeps the cursor in `[0, N]`. -/
theorem runTransitions_bounds (g : GameResult) (ts : List Transition) (c : Int)
    (h0 : 0 ≤ c) (hN : c ≤ (roundCount g : Int)) :
    0 ≤ runTransitions g ts c ∧ runTransitions g ts c ≤ (roundCount g : Int) := by
  induction ts generalizing c with
  | nil => exact ⟨h0, hN⟩
  | cons t ts ih =>
      have h := applyTransition_bounds g t c h0 hN
      exact ih (applyTransition g t c) h.1 h.2

/-- Auxiliary: iterating `stepForward` from `c ≥ 0` exactly `N - c` times
reaches `N`. -/
theorem stepForward_iterate_reach (g : GameResult) (k : Nat) :
    ∀ (c : Int), 0 ≤ c → c + k = (roundCount g : Int) →
      (stepForward g)^[k] c = (roundCount g : Int) := by
  induction k with
  | zero =>
      intro c h0 hk
      simp only [Function.iterate_zero, id_eq]
      omega
  | succ k ih =>
      intro c h0 hk
      have hc : c < (roundCount g : Int) := by omega
      rw [Function.iterate_succ_apply]
      rw [show stepForward g c = c + 1 from by unfold stepForward; rw [if_pos hc]]
      exact ih (c + 1) (by omega) (by omega)

/-! ## Claims -/

/-- C1: for every GameRecord whose two word sequences have equal length,
`getRounds` returns a sequence whose length equals that common length, and
for every index the round's `converged` flag is `true` iff the two players'
words at that index are equal as strings (exact, case-sensitive equality). -/
theorem C1_deriveRounds_length_and_converged (g : GameResult)
    (h : g.player1_words.length = g.player2_words.length) :
    (getRounds g).length = g.player1_words.length ∧
    ∀ (i : Nat) (h1 : i < g.player1_words.length) (h2 : i < g.player2_words.length)
      (hr : i < (getRounds g).length),
      (((getRounds g).get ⟨i, hr⟩).converged = true ↔
        g.player1_words.get ⟨i, h1⟩ = g.player2_words.get ⟨i, h2⟩) := by
  refine ⟨getRounds_length g, ?_⟩
  intro i h1 h2 hr
  rw [getRounds_get g i hr]
  simp [List.getElem?_eq_getElem, h1, h2]

/-- Witness for C1 at `sampleGame` (equal-length lists; round 2 converges on
"sand"). -/
theorem C1_witness :
    ((getRounds sampleGame).get ⟨1, by decide⟩).converged = true ↔
      sampleGame.player1_words.get ⟨1, by decide⟩ =
        sampleGame.player2_words.get ⟨1, by decide⟩ :=
  (C1_deriveRounds_length_and_converged sampleGame (by decide)).2 1
    (by decide) (by decide) (by decide)

/-- C2: every cursor value reachable from the initial state 0 by any finite
sequence of the four transitions lies in the closed interval `[0, N]` where
`N` is the number of derived rounds: it is never negative and never exceeds
`N`. -/
theorem C2_cursor_invariant (g : GameResult) (ts : List Transition) :
    0 ≤ runTransitions g ts 0 ∧ runTransitions g ts 0 ≤ (roundCount g : Int) :=
  runTransitions_bounds g ts 0 le_rfl (Int.natCast_nonneg _)

/-- C5: `stepForward` increments the cursor by one when `cursor < N` and is a
silent no-op at `cursor = N`; `stepBackward` decrements by one when
`cursor > 0` and is a no-op at `cursor = 0`. -/
theorem C5_step_semantics (g : GameResult) (c : Int) :
    (c < (roundCount g : Int) → stepForward g c = c + 1) ∧
    (c = (roundCount g : Int) → stepForward g c = c) ∧
    (0 < c → stepBackward c = c - 1) ∧
    (c = 0 → stepBackward c = c) := by
  unfold stepForward stepBackward
  refine ⟨?_, ?_, ?_, ?_⟩ <;> intro _h <;> split_ifs <;> omega

/-- Witness for C5: concrete steps on `sampleGame` (N = 2). -/
theorem C5_witness :
    stepForward sampleGame 0 = 0 + 1 ∧
    stepForward sampleGame 2 = 2 ∧
    stepBackward 2 = 2 - 1 ∧
    stepBackward 0 = 0 :=
  ⟨(C5_step_semantics sampleGame 0).1 (by decide),
   (C5_step_semantics sampleGame 2).2.1 (by decide),
   (C5_step_semantics sampleGame 2).2.2.1 (by decide),
   (C5_step_semantics sampleGame 0).2.2.2 rfl⟩

/-- C3 counterexample: the claim says the pair stepForward-then-stepBackward
is a no-op at the boundary `cursor = N`.  On `sampleGame` (N = 2), from
cursor 2 the pair yields 1, not 2: `stepForward` is a no-op there but
`stepBackward` still decrements. -/
theorem C3_counterexample :
    roundCount sampleGame = 2 ∧
    stepBackward (stepForward sampleGame 2) = 1 ∧ (1 : Int) ≠ 2 := by
  decide

/-- C3 amended: stepForward-then-stepBackward returns the cursor to its
original value from every state with `0 ≤ cursor < N` (interior states and
the boundary 0 alike); at `cursor = N` the pair is a no-op only when
`N = 0`, while for `N > 0` it leaves the cursor at `N - 1`. -/
theorem C3_roundtrip_amended (g : GameResult) (c : Int) :
    (0 ≤ c → c < (roundCount g : Int) → stepBackward (stepForward g c) = c) ∧
    (roundCount g = 0 → stepBackward (stepForward g 0) = 0) ∧
    (0 < roundCount g →
      stepBackward (stepForward g (roundCount g : Int)) = (roundCount g : Int) - 1) := by
  unfold stepForward stepBackward
  refine ⟨?_, ?_, ?_⟩ <;> intro _h <;> split_ifs <;> omega

/-- Witness for C3 amended: round trip at the interior state 1 of
`sampleGame`, and the decrement at its boundary state 2. -/
theorem C3_witness :
    stepBackward (stepForward sampleGame 1) = 1 ∧
    stepBackward (stepForward sampleGame (roundCount sampleGame : Int)) =
      (roundCount sampleGame : Int) - 1 :=
  ⟨(C3_roundtrip_amended sampleGame 1).1 (by decide) (by decide),
   (C3_roundtrip_amended sampleGame 1).2.2 (by decide)⟩

/-- C4: when the cursor sits at `N`, a win outcome renders the success
message carrying the record's converged word and its `rounds` count, and any
other outcome renders the failure message carrying that outcome verbatim
(one of the three non-win categories); when `cursor < N` neither result is
rendered. -/
theorem C4_result_display (g : GameResult) (c : Int) :
    (c = (roundCount g : Int) → g.outcome = Outcome.win →
      resultDisplay g c = ResultDisplay.success g.converged_word g.rounds) ∧
    (c = (roundCount g : Int) → g.outcome ≠ Outcome.win →
      resultDisplay g c = ResultDisplay.failure g.outcome ∧
      (g.outcome = Outcome.non_convergence ∨ g.outcome = Outcome.repetition ∨
        g.outcome = Outcome.invalid_word)) ∧
    (c < (roundCount g : Int) → resultDisplay g c = ResultDisplay.noResult) := by
  refine ⟨?_, ?_, ?_⟩
  · intro hc hw
    unfold resultDisplay
    rw [if_pos hc, if_pos hw]
  · intro hc hw
    refine ⟨?_, ?_⟩
    · unfold resultDisplay
      rw [if_pos hc, if_neg hw]
    · cases hg : g.outcome
      · exact absurd hg hw
      · exact Or.inl rfl
      · exact Or.inr (Or.inl rfl)
      · exact Or.inr (Or.inr rfl)
  · intro hlt
    unfold resultDisplay
    rw [if_neg (by omega)]

/-- Witness for C4: success on `sampleGame` at cursor 2, failure on
`raggedGame` at its cursor 2, no result on `sampleGame` at cursor 1. -/
theorem C4_witness :
    resultDisplay sampleGame 2 = ResultDisplay.success (some "sand") 2 ∧
    resultDisplay raggedGame 2 = ResultDisplay.failure Outcome.invalid_word ∧
    resultDisplay sampleGame 1 = ResultDisplay.noResult :=
  ⟨(C4_result_display sampleGame 2).1 (by decide) rfl,
   ((C4_result_display raggedGame 2).2.1 (by decide) (by decide)).1,
   (C4_result_display sampleGame 1).2.2 (by decide)⟩

/-- C6: `reset` yields cursor 0 and `playAll` yields cursor `N` from every
state, unconditionally; moreover from any in-range state `playAll` agrees
with iterating `stepForward` until it becomes a no-op (`N - c` steps reach
`N`, and a further `stepForward` there is a no-op). -/
theorem C6_reset_playAll (g : GameResult) (c : Int) :
    reset c = 0 ∧
    playAll g c = (roundCount g : Int) ∧
    (0 ≤ c → c ≤ (roundCount g : Int) →
      (stepForward g)^[((roundCount g : Int) - c).toNat] c = (roundCount g : Int)) ∧
    stepForward g (roundCount g : Int) = (roundCount g : Int) := by
  refine ⟨rfl, rfl, ?_, ?_⟩
  · intro h0 hN
    exact stepForward_iterate_reach g _ c h0 (by omega)
  · unfold stepForward
    split_ifs <;> omega

/-- Witness for C6 at `sampleGame`, cursor 1. -/
theorem C6_witness :
    reset 1 = 0 ∧
    playAll sampleGame 1 = (roundCount sampleGame : Int) ∧
    (stepForward sampleGame)^[((roundCount sampleGame : Int) - 1).toNat] 1 =
      (roundCount sampleGame : Int) ∧
    stepForward sampleGame (roundCount sampleGame : Int) = (roundCount sampleGame : Int) :=
  ⟨(C6_reset_playAll sampleGame 1).1,
   (C6_reset_playAll sampleGame 1).2.1,
   (C6_reset_playAll sampleGame 1).2.2.1 (by decide) (by decide),
   (C6_reset_playAll sampleGame 1).2.2.2⟩

/-- C7: in every reachable state, `visibleRounds` is exactly the prefix of
the derived round sequence of length `cursor`, and its length equals the
cursor value; no round beyond the cursor is exposed. -/
theorem C7_visibleRounds_prefix (g : GameResult) (ts : List Transition) :
    visibleRounds g (runTransitions g ts 0) =
      (getRounds g).take (runTransitions g ts 0).toNat ∧
    (((visibleRounds g (runTransitions g ts 0)).length : Int) = runTransitions g ts 0) := by
  obtain ⟨h0, hN⟩ := runTransitions_bounds g ts 0 le_rfl (Int.natCast_nonneg _)
  have hN' : runTransitions g ts 0 ≤ ((getRounds g).length : Int) := hN
  constructor
  · unfold visibleRounds jsSliceFromZero
    rw [if_neg (by omega)]
  · unfold visibleRounds jsSliceFromZero
    rw [if_neg (by omega), List.length_take]
    omega

/-- C8 counterexample: the claim's formula says the round at 1-based index
`i` carries number `i + 1`; for `i = 1` that would be 2, but the first
element of `getRounds sampleGame` carries number 1. -/
theorem C8_counterexample :
    ((getRounds sampleGame).get ⟨1 - 1, by decide⟩).number = 1 ∧ (1 : Nat) ≠ 1 + 1 := by
  decide

/-- C8 amended: the round at 0-based index `i` carries number `i + 1`;
equivalently the numbering is 1-based, the k-th element of the sequence has
number k. -/
theorem C8_numbering_amended (g : GameResult) (i : Nat) (hi : i < (getRounds g).length) :
    ((getRounds g).get ⟨i, hi⟩).number = i + 1 := by
  rw [getRounds_get g i hi]

/-- Witness for C8 amended: the second element of `getRounds sampleGame` has
number 2. -/
theorem C8_witness :
    ((getRounds sampleGame).get ⟨1, by decide⟩).number = 1 + 1 :=
  C8_numbering_amended sampleGame 1 (by decide)

/-- C9 counterexample: on the empty-word-list record the initial state has
`cursor = 0 = N`, so it is complete and its result is rendered, yet the
"not started" prompt is rendered as well — it is shown in a complete state,
refuting "shown only when the state is not complete and cursor == 0". -/
theorem C9_counterexample :
    roundCount emptyGame = 0 ∧
    isComplete emptyGame 0 = true ∧
    resultDisplay emptyGame 0 = ResultDisplay.failure Outcome.non_convergence ∧
    showStartPrompt 0 = true := by
  decide

/-- C9 amended: the "not started" prompt is shown exactly when the reachable
cursor is 0, irrespective of completeness; on a record with empty word
sequences the derived sequence is empty, the state `cursor = 0 = N`
satisfies the complete condition and renders its result, and the prompt is
rendered simultaneously rather than suppressed. -/
theorem C9_startPrompt_amended (g : GameResult) (ts : List Transition) :
    (showStartPrompt (runTransitions g ts 0) = true ↔ runTransitions g ts 0 = 0) ∧
    (getRounds emptyGame = [] ∧
      isComplete emptyGame 0 = true ∧
      resultDisplay emptyGame 0 = ResultDisplay.failure Outcome.non_convergence ∧
      showStartPrompt 0 = true) := by
  obtain ⟨h0, -⟩ := runTransitions_bounds g ts 0 le_rfl (Int.natCast_nonneg _)
  refine ⟨?_, by decide, by decide, by decide, by decide⟩
  unfold showStartPrompt isPlaying
  simp only [Bool.not_eq_eq_eq_not, Bool.not_true, decide_eq_false_iff_not, not_lt]
  omega

/-- C10: `getRounds` always produces exactly `player1_words.length` rounds,
regardless of `player2_words.length`; at every index past the end of
`player2_words` the round's player-2 word is absent (`none`) and its
`converged` flag is `false`. -/
theorem C10_length_and_missing_player2 (g : GameResult) :
    (getRounds g).length = g.player1_words.length ∧
    ∀ (i : Nat) (hi : i < (getRounds g).length), g.player2_words.length ≤ i →
      ((getRounds g).get ⟨i, hi⟩).player2_word = none ∧
      ((getRounds g).get ⟨i, hi⟩).converged = false := by
  refine ⟨getRounds_length g, ?_⟩
  intro i hi h2
  have h1 : i < g.player1_words.length := by
    have hlen := getRounds_length g
    omega
  rw [getRounds_get g i hi]
  refine ⟨?_, ?_⟩
  · simp [List.getElem?_eq_none, h2]
  · simp [List.getElem?_eq_none, h2, List.getElem?_eq_getElem, h1]

/-- Witness for C10 at `raggedGame` (player 1 has two words, player 2 one):
round 2 has no player-2 word and does not converge. -/
theorem C10_witness :
    ((getRounds raggedGame).get ⟨1, by decide⟩).player2_word = none ∧
    ((getRounds raggedGame).get ⟨1, by decide⟩).converged = false :=
  (C10_length_and_missing_player2 raggedGame).2 1 (by decide) (by decide)

end Convergence
